import Mathlib

/-!
Shallow embedding of the WSN deployment protocol implemented in this
repository (base station, mobile robot, sensor node), together with proofs
about the embedded operations.

Sources embedded here:
* `app1.c` — the Rime-based single-file variant (base-station report handler
  `unicast_recv_bs`, robot dispersion loop of `main_node_process`, sensor
  handler `broadcast_recv_sensor`, energy update functions).
* `src/base-station.c`, `src/mobile-robot.c`, `src/sensor-node.c` with
  `src/wsn-deployment.h` — the Contiki-NG variant (`init_la_db`,
  `init_grid_db`, `update_la_status`, `handle_robot_discovery`,
  `dispersion_case1`, `count_sensors_in_grid`).
* `disaster-wsn-deployment/mobile-robot.c` (`create_grids`,
  `find_nearest_uncovered_grid`, `execute_dispersion_for_grid`).

Modelling conventions: C integers become `Int`/`Nat` (with `% 256` where a
`uint8_t` accumulator can overflow); positions are integer pairs; Euclidean
distance comparisons `sqrt(dx²+dy²) ≤ r` and `<` between distances are
modelled by the equivalent comparisons of squared distances over `Int`
(`Real.sqrt` is strictly monotone on nonnegative reals, so `<`/`≤`/`=` of
distances and of squared distances agree; the C `double` computations on the
small integer coordinates used here are exact enough that the comparison
results coincide). Energy amounts are rationals with the C constants written
as exact fractions. Fixed-size C arrays with an "empty slot" convention
(`sensor_node_id == 0`) become lists of records in which an entry with id 0
is an empty slot.
-/

namespace WsnDeployment

/-- An integer planar coordinate (`coord_t` / `position_t` in the C code). -/
structure Coord where
  x : Int
  y : Int
deriving DecidableEq, Repr

/-- Squared Euclidean distance between two coordinates.  The C helper
`calculate_distance` returns `sqrt(dx²+dy²)`; all uses compare distances, so
we embed the squared form (see the file header). -/
def distSq (p q : Coord) : Int :=
  (p.x - q.x) ^ 2 + (p.y - q.y) ^ 2

/-! ### Configuration constants (app1.c macros) -/

/-- `ROBOT_PERCEPTION_RANGE` in app1.c. -/
def robotPerceptionRange : Int := 200

/-- `SENSOR_SENSING_RANGE` in app1.c. -/
def sensorSensingRange : Int := 20

/-- `ROBOT_STOCK_CAPACITY` in app1.c. -/
def robotStockCapacity : Int := 15

/-- `ROBOT_INITIAL_STOCK` in app1.c. -/
def robotInitialStock : Int := 10

/-! ### Records of the per-role databases -/

/-- `la_db_record_t` of app1.c: an entry of the base station's LA table. -/
structure LaRec where
  laId : Nat
  center : Coord
  count : Int
deriving DecidableEq, Repr

/-- `grid_db_record_t` of app1.c / `grid_db_entry_t` of wsn-deployment.h:
an entry of a robot's grid table (`status` is 0 = uncovered, 1 = covered). -/
structure GridRec where
  gridId : Nat
  center : Coord
  status : Nat
deriving DecidableEq, Repr

/-- `robot_sensor_db_record_t` of app1.c: a slot of the robot's sensor table.
Slot id 0 means the slot is empty. -/
structure SensorRec where
  sid : Nat
  coord : Coord
  status : Nat
deriving DecidableEq, Repr

/-- `robot_to_sensor_msg_t` of app1.c: a command sent by the robot to a
sensor (`activate` is 0 = idle/collect, 1 = activate). -/
structure SensorCmd where
  sid : Nat
  activate : Nat
  newCoord : Coord
deriving DecidableEq, Repr

/-- `sensor_m_msg_t` / `sensor_reply_msg_t`: a sensor's reply to a robot
discovery broadcast. -/
structure SensorReply where
  sid : Nat
  coord : Coord
  status : Nat
deriving DecidableEq, Repr

/-! ### Base-station initialization -/

/-- The LA-table initialization of app1.c (`main_node_process`, BS branch):
a row-major double loop over `NUM_LAs_Y × NUM_LAs_X` cells, with
`la_id = y * NUM_LAs_X + x`, a center at the cell midpoint and 0 covered
grids.  Parameters are the target area sides and the LA side
(`ROBOT_PERCEPTION_RANGE`). -/
def initLaDbApp1 (areaX areaY w : Nat) : List LaRec :=
  let nX := areaX / w
  let nY := areaY / w
  (List.range nY).flatMap fun y =>
    (List.range nX).map fun x =>
      { laId := y * nX + x
        center := ⟨(x * w + w / 2 : Nat), (y * w + w / 2 : Nat)⟩
        count := 0 }

/-- Number of loop steps of `for (v = r/2; v < a; v += r)` in
`init_la_db` of src/base-station.c. -/
def axisCountSrc (a r : Nat) : Nat :=
  if r = 0 then 0 else if a ≤ r / 2 then 0 else (a - r / 2 + r - 1) / r

/-- The axis values visited by one loop of `init_la_db`. -/
def axisValsSrc (a r : Nat) : List Nat :=
  (List.range (axisCountSrc a r)).map fun k => r / 2 + k * r

/-- `la_db_entry_t` of wsn-deployment.h (src variant); `noGrid` is a
`uint8_t`. -/
structure LaEntry where
  laId : Nat
  cx : Int
  cy : Int
  noGrid : Nat
deriving DecidableEq, Repr

/-- `init_la_db` of src/base-station.c: `num_las` is `NO_LA =
floor(TARGET_AREA_SIZE / ROBOT_PERCEPTION_RANGE)` clamped to the table
capacity, and the row-major tiling loop stops after `num_las` entries
(`la_count < num_las` guards both loops). Ids are 1-based and sequential. -/
def initLaDbSrc (areaSize r maxLa : Nat) : List LaEntry :=
  let numLas := min (areaSize / r) maxLa
  let centers :=
    (axisValsSrc areaSize r).flatMap fun y =>
      (axisValsSrc areaSize r).map fun x => (x, y)
  (centers.take numLas).enum.map fun p =>
    { laId := p.1 + 1, cx := (p.2.1 : Int), cy := (p.2.2 : Int), noGrid := 0 }

/-! ### Robot grid-table initialization -/

/-- The grid-table initialization of app1.c (robot branch): the LA is split
into a `10 × 10` row-major lattice (`NUM_GRIDS_X_PER_LA =
ROBOT_PERCEPTION_RANGE / SENSOR_SENSING_RANGE = 10`), `grid_id` is the
0-based index, centers are `la_origin + (g + 1/2) · GRID_WIDTH` with
`la_origin = laCenter - 100`, and every grid starts uncovered. -/
def initGridDbApp1 (laCenter : Coord) : List GridRec :=
  (List.range 10).flatMap fun gy =>
    (List.range 10).map fun gx =>
      { gridId := gy * 10 + gx
        center := ⟨laCenter.x - 100 + gx * 20 + 10, laCenter.y - 100 + gy * 20 + 10⟩
        status := 0 }

/-- Floor square root, the value of the C cast `(uint8_t)sqrt((double)n)`
for the small values arising here (a kernel-computable formulation: one
less than the number of `m ≤ n` with `m·m ≤ n`). -/
def floorSqrt (n : Nat) : Nat :=
  ((List.range (n + 1)).filter fun m => m * m ≤ n).length - 1

/-- `init_grid_db` of src/mobile-robot.c: `num_grids` is `NO_G =
floor(ROBOT_PERCEPTION_RANGE / SENSOR_PERCEPTION_RANGE)` clamped to the
table capacity, `grids_per_row = floor(sqrt(num_grids))`, and the double
loop creates at most `num_grids` grids in `grids_per_row` rows and columns.
The C center `start + (col + 0.5) * grid_size` is integral for the even
grid sizes used here, giving `start + col·rs + rs/2`. Ids are 1-based. -/
def initGridDbSrc (r rs maxG : Nat) (laCenter : Coord) : List GridRec :=
  let numGrids := min (r / rs) maxG
  let perRow := floorSqrt numGrids
  let cells :=
    (List.range perRow).flatMap fun row =>
      (List.range perRow).map fun col => (col, row)
  (cells.take numGrids).enum.map fun p =>
    { gridId := p.1 + 1
      center := ⟨laCenter.x - (r : Int) / 2 + (p.2.1 : Nat) * rs + (rs : Int) / 2,
                 laCenter.y - (r : Int) / 2 + (p.2.2 : Nat) * rs + (rs : Int) / 2⟩
      status := 0 }

/-- `create_grids` of disaster-wsn-deployment/mobile-robot.c:
`grids_per_side = robot_perception_range / sensor_perception_range`,
`num_grids = grids_per_side²` clamped to `MAX_GRIDS_PER_LA`, single loop
with `grid_x = i % side`, `grid_y = i / side`, 1-based ids, uncovered. -/
def createGridsD (r rs maxG : Nat) (laCx laCy : Int) : List GridRec :=
  let side := r / rs
  let n := min (side * side) maxG
  (List.range n).map fun i =>
    { gridId := i + 1
      center := ⟨laCx - (r : Int) / 2 + (i % side : Nat) * rs + (rs : Int) / 2,
                 laCy - (r : Int) / 2 + (i / side : Nat) * rs + (rs : Int) / 2⟩
      status := 0 }

/-! ### Sensor discovery handlers -/

/-- `broadcast_recv_sensor` of app1.c: on a discovery broadcast carrying the
robot's position, the sensor replies exactly once with its id, true position
and mode — but only if its position is within `ROBOT_PERCEPTION_RANGE` of
the robot; otherwise it sends nothing. -/
def broadcastRecvSensor (sensorId : Nat) (sensorPos : Coord) (statusActive : Nat)
    (robotCoord : Coord) : List SensorReply :=
  if distSq sensorPos robotCoord ≤ robotPerceptionRange ^ 2 then
    [{ sid := sensorId, coord := sensorPos, status := statusActive }]
  else []

/-- `handle_robot_discovery` of src/sensor-node.c: the `Mp` broadcast of
this variant carries no robot position, and the handler replies
unconditionally (the C comment reads "simplified approach"). -/
def handleRobotDiscovery (_robotId : Nat) (sensorId : Nat) (sensorPos : Coord)
    (status : Nat) : List SensorReply :=
  [{ sid := sensorId, coord := sensorPos, status := status }]

/-! ### Derived quantities used by the theorems -/

/-- Sum of the covered-grid counts of the app1.c LA table. -/
def laSum (l : List LaRec) : Int := (l.map (·.count)).sum

/-- Number of uncovered grids in a grid table. -/
def uncoveredCount (grids : List GridRec) : Nat :=
  (grids.filter (fun g => g.status == 0)).length

/-! ### app1.c robot dispersion loop -/

/-- The robot state used by the dispersion loop of app1.c
(`robot_current_pos`, `robot_stock_rs`, `robot_sensor_db`,
`robot_grid_db`, `robot_no_p`). -/
structure RobotSt where
  pos : Coord
  stock : Int
  sensorDb : List SensorRec
  grids : List GridRec
  noP : Nat
deriving DecidableEq, Repr

/-- The co-location test of app1.c (`main_node_process`, dispersion loop):
a non-empty slot whose last reported coordinate is within
`SENSOR_SENSING_RANGE / 2` of the robot's position (the grid center).  Note
that the reported mode of the sensor is *not* inspected. -/
def coLocatedHere (robotPos : Coord) (r : SensorRec) : Bool :=
  r.sid != 0 && decide (distSq r.coord robotPos ≤ (sensorSensingRange / 2) ^ 2)

/-- `sensors_to_collect_node_ids`: the ids of the co-located slots, in slot
order. -/
def coLocatedIds (robotPos : Coord) (db : List SensorRec) : List Nat :=
  (db.filter (coLocatedHere robotPos)).map (·.sid)

/-- The ids of the non-empty slots of the sensor table, in slot order. -/
def nonzeroSids (db : List SensorRec) : List Nat :=
  (db.filter (fun r => r.sid != 0)).map (·.sid)

/-- Modelled from the spec: §4.2 step 2 describes `coLocated` as "the set
of sensor records whose last-known position lies within `sensorRange/2` of
the grid center and whose mode is idle".  This definition follows the
spec's words (note the idle-mode filter, which `coLocatedIds` — the set the
code actually computes — does not have); it exists only to compare the two. -/
def specIdleCoLocated (robotPos : Coord) (db : List SensorRec) : List Nat :=
  (db.filter fun r =>
    r.sid != 0 && (r.status == 0) &&
      decide (distSq r.coord robotPos ≤ (sensorSensingRange / 2) ^ 2)).map (·.sid)

/-- The inner `for (j ...)` search of the app1.c collect loops: find the
first slot whose id matches, mark it empty (`sensor_node_id = 0`), and
return the updated table together with the slot's coordinate (used as the
`new_coord` of the collect command). -/
def removeFirstSensor : List SensorRec → Nat → Option (List SensorRec × Coord)
  | [], _ => none
  | r :: rest, sid =>
    if r.sid = sid then some ({ r with sid := 0 } :: rest, r.coord)
    else
      match removeFirstSensor rest sid with
      | some (rest', c) => some (r :: rest', c)
      | none => none

/-- The Case-1 collect loop of app1.c: for each co-located id, while stock
is below `ROBOT_STOCK_CAPACITY`, remove the sensor from the table,
increment stock and send it a collect command (`activate_status = 0`,
`new_coord` = its stored coordinate); stop at capacity.  Returns the
updated table, the updated stock and the commands sent. -/
def collectLoop : List Nat → List SensorRec → Int → List SensorRec × Int × List SensorCmd
  | [], db, stock => (db, stock, [])
  | sid :: rest, db, stock =>
    if stock < robotStockCapacity then
      match removeFirstSensor db sid with
      | some (db', c) =>
        let r := collectLoop rest db' (stock + 1)
        (r.1, r.2.1, ⟨sid, 0, c⟩ :: r.2.2)
      | none => collectLoop rest db stock
    else (db, stock, [])

/-- The Case-3 collect loop of app1.c: identical to `collectLoop` except
that the sensor just activated for coverage is skipped (the `continue`
happens before the capacity check). -/
def collectLoopSkip (skip : Nat) :
    List Nat → List SensorRec → Int → List SensorRec × Int × List SensorCmd
  | [], db, stock => (db, stock, [])
  | sid :: rest, db, stock =>
    if sid = skip then collectLoopSkip skip rest db stock
    else if stock < robotStockCapacity then
      match removeFirstSensor db sid with
      | some (db', c) =>
        let r := collectLoopSkip skip rest db' (stock + 1)
        (r.1, r.2.1, ⟨sid, 0, c⟩ :: r.2.2)
      | none => collectLoopSkip skip rest db stock
    else (db, stock, [])

/-- Mark grid `t` covered, exactly as app1.c does
(`if (grid_became_covered && grid_status == 0) grid_status = 1`). -/
def markCovered (grids : List GridRec) (t : Nat) : List GridRec :=
  match grids[t]? with
  | some g => if g.status = 0 then grids.set t { g with status := 1 } else grids
  | none => grids

/-- The four-case dispersion dispatch of app1.c, applied after the robot
has moved to the center of grid `t` (so `st.pos` is that grid's center).
Returns the updated state and the sensor commands sent. -/
def app1ApplyCase (st : RobotSt) (t : Nat) : RobotSt × List SensorCmd :=
  let co := coLocatedIds st.pos st.sensorDb
  if st.stock > 0 ∧ co.length > 0 then
    let r := collectLoop co st.sensorDb (st.stock - 1)
    ({ st with sensorDb := r.1, stock := r.2.1, grids := markCovered st.grids t }, r.2.2)
  else if st.stock > 0 ∧ co.length = 0 then
    ({ st with stock := st.stock - 1, grids := markCovered st.grids t }, [])
  else if st.stock = 0 ∧ co.length > 0 then
    let act := co.headI
    let r := collectLoopSkip act co st.sensorDb st.stock
    ({ st with sensorDb := r.1, stock := r.2.1, grids := markCovered st.grids t },
     ⟨act, 1, st.pos⟩ :: r.2.2)
  else (st, [])

/-- The nearest-uncovered-grid scan of app1.c (and of
`find_nearest_uncovered_grid` in src/mobile-robot.c): iterate over the grid
table in index order, keeping the first uncovered grid and replacing it
whenever a strictly closer uncovered grid is found. `k` is the index of the
head of the remaining list. -/
def findNearestGo (pos : Coord) :
    List GridRec → Nat → Option (Nat × GridRec) → Option (Nat × GridRec)
  | [], _, acc => acc
  | g :: rest, k, acc =>
    let acc' :=
      if g.status = 0 then
        match acc with
        | none => some (k, g)
        | some (j, h) =>
          if distSq pos g.center < distSq pos h.center then some (k, g) else some (j, h)
      else acc
    findNearestGo pos rest (k + 1) acc'

/-- The nearest uncovered grid (index and record) from the given position,
or `none` if every grid is covered. -/
def findNearestUncoveredGrid (pos : Coord) (grids : List GridRec) : Option (Nat × GridRec) :=
  findNearestGo pos grids 0 none

/-- One iteration of the app1.c dispersion `while (robot_no_p > 0)` loop:
select the nearest uncovered grid (`none` terminates the loop, as does an
exhausted move budget), move there, apply the four-case dispatch, and
decrement the move budget `NO_P`. -/
def app1DispersionIter (st : RobotSt) : Option (RobotSt × List SensorCmd) :=
  if st.noP > 0 then
    match findNearestUncoveredGrid st.pos st.grids with
    | none => none
    | some (t, g) =>
      let r := app1ApplyCase { st with pos := g.center } t
      some ({ r.1 with noP := r.1.noP - 1 }, r.2)
  else none

/-- A robot-side operation affecting stock: one dispersion-loop iteration,
or the end-of-phase stock reset `robot_stock_rs = ROBOT_INITIAL_STOCK`. -/
inductive RobotOp where
  | disperse
  | resetStock
deriving DecidableEq, Repr

/-- Run a sequence of robot operations (a no-op when the dispersion loop
has terminated). -/
def runRobotOps (st : RobotSt) : List RobotOp → RobotSt
  | [] => st
  | RobotOp.disperse :: rest =>
    (match app1DispersionIter st with
     | some r => runRobotOps r.1 rest
     | none => runRobotOps st rest)
  | RobotOp.resetStock :: rest =>
    runRobotOps { st with stock := robotInitialStock } rest

/-! ### src/mobile-robot.c dispersion Case 1 -/

/-- `count_sensors_in_grid` of src/mobile-robot.c: count the database
sensors within `SENSOR_PERCEPTION_RANGE` (50) of the grid center; if none,
with probability 30% fabricate 1–3 sensors from the simulation PRNG.  The
two PRNG draws are explicit arguments. -/
def countSensorsInGrid (sensors : List SensorRec) (gridCenter : Coord)
    (rand1 rand2 : Nat) : Nat :=
  let c := (sensors.filter (fun s => decide (distSq s.coord gridCenter ≤ 50 ^ 2))).length
  if c = 0 ∧ rand1 % 100 < 30 then 1 + rand2 % 3 else c

/-- The `while (extra_sensors > 0 && stock_rs < ROBOT_CAPACITY)` collect
loop shared by src/mobile-robot.c (cases 1 and 3) and
disaster-wsn-deployment/mobile-robot.c (where the bound is
`MAX_SENSORS_PER_ROBOT`): increment stock once per remaining sensor while
below the capacity bound. -/
def boundedCollect (cap : Int) : Nat → Int → Int
  | 0, stock => stock
  | n + 1, stock => if stock < cap then boundedCollect cap n (stock + 1) else stock

/-- The robot state of src/mobile-robot.c relevant to `dispersion_case1`. -/
structure SrcRobotSt where
  stock : Int
  sensorDb : List SensorRec
  grids : List GridRec
deriving DecidableEq, Repr

/-- `dispersion_case1` of src/mobile-robot.c: if stock is positive, append
an active deployed-sensor record at the grid center (id `100 + num_sensors`),
decrement stock, collect `count_sensors_in_grid` extra sensors up to
`ROBOT_CAPACITY` (15), and mark the grid covered. -/
def dispersionCase1Src (st : SrcRobotSt) (t : Nat) (rand1 rand2 : Nat) : SrcRobotSt :=
  match st.grids.get? t with
  | none => st
  | some g =>
    if st.stock > 0 then
      let db' := st.sensorDb ++ [{ sid := 100 + st.sensorDb.length, coord := g.center, status := 1 }]
      let extra := countSensorsInGrid db' g.center rand1 rand2
      { st with
        sensorDb := db'
        stock := boundedCollect 15 extra (st.stock - 1)
        grids := st.grids.set t { g with status := 1 } }
    else st

/-! ### disaster-wsn-deployment/mobile-robot.c dispersion -/

/-- `sensor_db_entry_t` of disaster-wsn-deployment/mobile-robot.c. -/
structure DSensor where
  sid : Nat
  pos : Coord
  status : Nat
  battery : Nat
deriving DecidableEq, Repr

/-- The robot state of disaster-wsn-deployment/mobile-robot.c relevant to
the dispersion phase (`grid_db`, `sensor_db`, `stock_sensors`,
`no_permissible_moves`). -/
structure DRobotSt where
  grids : List GridRec
  sensors : List DSensor
  stock : Int
  noP : Nat
deriving DecidableEq, Repr

/-- `find_nearest_uncovered_grid` of disaster-wsn-deployment/mobile-robot.c:
despite its name it returns the index of the *first* uncovered grid,
ignoring distances (`255` ≘ `none`). -/
def findNearestUncoveredD (grids : List GridRec) : Option Nat :=
  grids.findIdx? (fun g => g.status == 0)

/-- `find_sensors_in_grid`: indices of up to 10 database sensors within the
`|dx| ≤ half, |dy| ≤ half` box around the grid center, where `half =
sensor_perception_range / 2 = 10`. -/
def findSensorsInGridD (st : DRobotSt) (t : Nat) : List Nat :=
  match st.grids.get? t with
  | none => []
  | some g =>
    ((st.sensors.enum.filter fun p =>
        decide ((p.2.pos.x - g.center.x).natAbs ≤ 10 ∧
                (p.2.pos.y - g.center.y).natAbs ≤ 10)).map (·.1)).take 10

/-- `deploy_sensor_to_grid`: point the sensor record at the grid center and
mark it active (the deploy message mirrors this record update). -/
def dDeploySensor (st : DRobotSt) (t si : Nat) : DRobotSt :=
  match st.grids.get? t, st.sensors.get? si with
  | some g, some s =>
    { st with sensors := st.sensors.set si { s with pos := g.center, status := 1 } }
  | _, _ => st

/-- Mark grid `t` covered (disaster variant sets the status directly). -/
def dMarkCovered (grids : List GridRec) (t : Nat) : List GridRec :=
  match grids.get? t with
  | some g => grids.set t { g with status := 1 }
  | none => grids

/-- `execute_dispersion_for_grid` of
disaster-wsn-deployment/mobile-robot.c: the four-case dispatch followed by
the unconditional `no_permissible_moves--`.  `maxS` is the build-time
`MAX_SENSORS_PER_ROBOT` capacity bound of the collect loops. -/
def execDispersionForGrid (maxS : Int) (st : DRobotSt) (t : Nat) : DRobotSt :=
  let inds := findSensorsInGridD st t
  let st1 :=
    if st.stock > 0 ∧ inds.length > 0 then
      let d := dDeploySensor st t inds.headI
      { d with
        stock := boundedCollect maxS (inds.length - 1) (st.stock - 1)
        grids := dMarkCovered d.grids t }
    else if st.stock > 0 ∧ inds.length = 0 then
      { st with stock := st.stock - 1, grids := dMarkCovered st.grids t }
    else if st.stock = 0 ∧ inds.length > 0 then
      let d := dDeploySensor st t inds.headI
      { d with
        stock := boundedCollect maxS (inds.length - 1) st.stock
        grids := dMarkCovered d.grids t }
    else st
  { st1 with noP := st1.noP - 1 }

/-- The dispersion part of the disaster-variant main state machine: while
moves remain, visit the grid returned by `find_nearest_uncovered_grid`;
when no uncovered grid remains the move budget is zeroed and the loop
ends.  Returns the final state and the number of grid visits made. -/
def disasterRun (maxS : Int) : DRobotSt → Nat → DRobotSt × Nat
  | st, 0 => (st, 0)
  | st, fuel + 1 =>
    if st.noP > 0 then
      match findNearestUncoveredD st.grids with
      | some t =>
        let r := disasterRun maxS (execDispersionForGrid maxS st t) fuel
        (r.1, r.2 + 1)
      | none => ({ st with noP := 0 }, 0)
    else (st, 0)

/-! ### Base-station report handlers -/

/-- The base-station state of app1.c (`la_db`, `robot_db`,
`total_covered_grids_global_bs`, `robots_finished_current_phase`).  In
app1.c `la_id` equals the index of the LA in `la_db`, and `robot_db` maps a
robot id to its assigned LA id. -/
structure BsSt where
  laDb : List LaRec
  robotDb : List (Nat × Nat)
  total : Int
  finished : Nat
deriving DecidableEq, Repr

/-- `unicast_recv_bs` of app1.c (report part): look up the robot's assigned
LA; if that LA's covered-grid count is still 0, set it to the reported
count and add the count to the global total; otherwise leave both alone.
The robots-finished counter is incremented on every report received. -/
def unicastRecvBs (st : BsSt) (robotId : Nat) (covered : Int) : BsSt :=
  let assigned := (st.robotDb.find? (fun r => r.1 == robotId)).map (·.2)
  let st1 :=
    match assigned with
    | some la =>
      match st.laDb.get? la with
      | some rec =>
        if rec.count = 0 then
          { st with
            laDb := st.laDb.set la { rec with count := covered }
            total := st.total + covered }
        else st
      | none => st
    | none => st
  { st1 with finished := st1.finished + 1 }

/-- The base-station state of src/base-station.c (`la_db`, `robot_db`,
`total_covered_grids`); `total` is a `uint8_t` accumulator. -/
structure Bs2St where
  laDb : List LaEntry
  robotDb : List (Nat × Nat)
  total : Nat
deriving DecidableEq, Repr

/-- Sum of the per-LA covered-grid counts. -/
def sumNoGrid (l : List LaEntry) : Nat := (l.map (·.noGrid)).sum

/-- `update_la_status` of src/base-station.c: find the first robot-table
entry for the reporting robot, find its LA, *unconditionally* overwrite
that LA's covered-grid count with the reported value, and recompute the
global total as the (uint8) sum over the LA table.  There is no
first-writer-wins check in this variant. -/
def updateLaStatus (st : Bs2St) (robotId covered : Nat) : Bs2St :=
  match st.robotDb.find? (fun r => r.1 == robotId) with
  | none => st
  | some rp =>
    match st.laDb.findIdx? (fun e => e.laId == rp.2) with
    | none => st
    | some j =>
      match st.laDb.get? j with
      | some e =>
        let laDb' := st.laDb.set j { e with noGrid := covered % 256 }
        { st with laDb := laDb', total := sumNoGrid laDb' % 256 }
      | none => st

/-! ### Energy accounting (app1.c §4.4 EnergyAccountant) -/

/-- Contiki `CLOCK_SECOND` (ticks per second), as a rational. -/
def clockSecond : ℚ := 128

/-- `BYTES_PER_SECOND_RADIO` of app1.c. -/
def bytesPerSecondRadio : ℚ := 1000

/-- `MU_SENSING` of app1.c (0.0005 J/m²). -/
def muSensing : ℚ := 5 / 10000

/-- `TAU_MOBILITY` of app1.c (0.0005 J/m). -/
def tauMobility : ℚ := 5 / 10000

/-- `energy_stats_t` of app1.c: the per-node additive accumulators. -/
structure EnergyStats where
  baseline : ℚ
  sensing : ℚ
  processing : ℚ
  transmit : ℚ
  receive : ℚ
  mobility : ℚ
  idleRadio : ℚ
deriving DecidableEq, Repr

/-- `update_baseline_energy` of app1.c. -/
def updBaselineEnergy (e : EnergyStats) (powerW durationTicks : ℚ) : EnergyStats :=
  { e with baseline := e.baseline + powerW * (durationTicks / clockSecond) }

/-- `update_sensing_energy` of app1.c. -/
def updSensingEnergy (e : EnergyStats) (range : ℚ) : EnergyStats :=
  { e with sensing := e.sensing + muSensing * range * range }

/-- `update_processing_energy` of app1.c. -/
def updProcessingEnergy (e : EnergyStats) (powerW durationTicks : ℚ) : EnergyStats :=
  { e with processing := e.processing + powerW * (durationTicks / clockSecond) }

/-- `update_transmit_energy` of app1.c. -/
def updTransmitEnergy (e : EnergyStats) (powerW bytes : ℚ) : EnergyStats :=
  { e with transmit := e.transmit + powerW * (bytes / bytesPerSecondRadio) }

/-- `update_receive_energy` of app1.c. -/
def updReceiveEnergy (e : EnergyStats) (powerW bytes : ℚ) : EnergyStats :=
  { e with receive := e.receive + powerW * (bytes / bytesPerSecondRadio) }

/-- `update_idle_radio_energy` of app1.c. -/
def updIdleRadioEnergy (e : EnergyStats) (powerW durationTicks : ℚ) : EnergyStats :=
  { e with idleRadio := e.idleRadio + powerW * (durationTicks / clockSecond) }

/-- `update_mobility_energy` of app1.c. -/
def updMobilityEnergy (e : EnergyStats) (dist : ℚ) : EnergyStats :=
  { e with mobility := e.mobility + tauMobility * dist }

/-- A node's total energy: the sum of its accumulators (app1.c final
report). -/
def totalNodeEnergy (e : EnergyStats) : ℚ :=
  e.baseline + e.sensing + e.processing + e.transmit + e.receive +
    e.mobility + e.idleRadio

/-- One entry of a node's event trace: the tick durations, message sizes
and move distances that drive the energy accumulators. -/
inductive EnergyEvent where
  | baselineTick (powerW durationTicks : ℚ)
  | sensingEvent (range : ℚ)
  | processingTick (powerW durationTicks : ℚ)
  | transmitMsg (powerW bytes : ℚ)
  | receiveMsg (powerW bytes : ℚ)
  | idleTick (powerW durationTicks : ℚ)
  | moveBy (dist : ℚ)
deriving DecidableEq, Repr

/-- The accounting step relation: how an event of the trace updates the
accumulators (one constructor per app1.c update function). -/
inductive EnergyStep : EnergyStats → EnergyEvent → EnergyStats → Prop where
  | baselineTick (e : EnergyStats) (p d : ℚ) :
      EnergyStep e (.baselineTick p d) (updBaselineEnergy e p d)
  | sensingEvent (e : EnergyStats) (r : ℚ) :
      EnergyStep e (.sensingEvent r) (updSensingEnergy e r)
  | processingTick (e : EnergyStats) (p d : ℚ) :
      EnergyStep e (.processingTick p d) (updProcessingEnergy e p d)
  | transmitMsg (e : EnergyStats) (p b : ℚ) :
      EnergyStep e (.transmitMsg p b) (updTransmitEnergy e p b)
  | receiveMsg (e : EnergyStats) (p b : ℚ) :
      EnergyStep e (.receiveMsg p b) (updReceiveEnergy e p b)
  | idleTick (e : EnergyStats) (p d : ℚ) :
      EnergyStep e (.idleTick p d) (updIdleRadioEnergy e p d)
  | moveBy (e : EnergyStats) (d : ℚ) :
      EnergyStep e (.moveBy d) (updMobilityEnergy e d)

/-- Processing a whole event trace. -/
inductive EnergyRun : EnergyStats → List EnergyEvent → EnergyStats → Prop where
  | nil (e : EnergyStats) : EnergyRun e [] e
  | cons {e e' e'' : EnergyStats} {ev : EnergyEvent} {evs : List EnergyEvent} :
      EnergyStep e ev e' → EnergyRun e' evs e'' → EnergyRun e (ev :: evs) e''

/-! ## Helper lemmas -/

/-- A row-major double loop enumerates the cells `(k / nX, k % nX)` for
`k < nY * nX`. -/
theorem range_flatMap_row_major {α : Type} (f : Nat → Nat → α) (nY nX : Nat) :
    ((List.range nY).flatMap fun y => (List.range nX).map fun x => f y x) =
      (List.range (nY * nX)).map fun k => f (k / nX) (k % nX) := by
  induction nY with
  | zero => simp
  | succ n ih =>
    rw [List.range_succ, List.flatMap_append, ih, Nat.succ_mul, List.range_add,
      List.map_append, List.map_map]
    congr 1
    · simp only [List.flatMap_cons, List.flatMap_nil, List.append_nil]
      refine List.map_congr_left fun k hk => ?_
      rw [List.mem_range] at hk
      have hpos : 0 < nX := Nat.zero_lt_of_lt hk
      have h1 : (n * nX + k) / nX = n + k / nX := by
        rw [Nat.mul_comm n nX, Nat.mul_add_div hpos]
      have h2 : (n * nX + k) % nX = k := by
        rw [Nat.mul_comm n nX, Nat.mul_add_mod, Nat.mod_eq_of_lt hk]
      rw [Function.comp_apply, h1, h2, Nat.div_eq_of_lt hk, Nat.add_zero]

/-! ## Claim C6 -/

/-- Claim C6 (amended): the app1.c base-station initialization tiles the
target area into exactly `(areaY/w) · (areaX/w)` location areas in
row-major order, each with the sequential id `k`, a center at the midpoint
of cell `(k % nX, k / nX)`, and covered-grid count 0; with a 1000×1000 area
and robot range 200 this gives 25 LAs.  (The src/base-station.c variant
does not satisfy the claimed `floor(area/range)²` count; see the
counterexample.) -/
theorem claim6_la_tiling :
    (∀ areaX areaY w : Nat,
      initLaDbApp1 areaX areaY w =
        (List.range ((areaY / w) * (areaX / w))).map fun k =>
          { laId := k
            center := ⟨((k % (areaX / w)) * w + w / 2 : Nat), ((k / (areaX / w)) * w + w / 2 : Nat)⟩
            count := 0 }) ∧
    (initLaDbApp1 1000 1000 200).length = 25 := by
  constructor
  · intro areaX areaY w
    unfold initLaDbApp1
    rw [range_flatMap_row_major (fun y x =>
      ({ laId := y * (areaX / w) + x
         center := ⟨((x * w + w / 2 : Nat) : Int), ((y * w + w / 2 : Nat) : Int)⟩
         count := 0 } : LaRec))]
    refine List.map_congr_left fun k hk => ?_
    rw [List.mem_range] at hk
    have hpos : 0 < areaX / w := by
      rcases Nat.eq_zero_or_pos (areaX / w) with h | h
      · rw [h, Nat.mul_zero] at hk; exact absurd hk (Nat.not_lt_zero k)
      · exact h
    have : k / (areaX / w) * (areaX / w) + k % (areaX / w) = k := Nat.div_add_mod' k (areaX / w)
    simp [this]
  · rfl

/-- Counterexample to claim C6 as stated: `init_la_db` of
src/base-station.c creates only `min(floor(area/range), MAX) = 5` location
areas for a 1000-size area and range 200 (its `NO_LA` macro omits the
square), not `floor(area/range)² = 25`, nor that number clamped to the
table capacity 10. -/
theorem claim6_counterexample :
    (initLaDbSrc 1000 200 10).length = 5 ∧
    (1000 / 200 : Nat) ^ 2 = 25 ∧
    (initLaDbSrc 1000 200 10).length ≠ (1000 / 200 : Nat) ^ 2 ∧
    (initLaDbSrc 1000 200 10).length ≠ min ((1000 / 200 : Nat) ^ 2) 10 := by
  refine ⟨rfl, rfl, ?_, ?_⟩ <;> decide

/-! ## Claim C7 -/

/-- Claim C7 (amended): when a robot of app1.c begins a new LA assignment
it partitions the LA into exactly `10 × 10 = (robotRange/sensorRange)²`
grids in row-major order with sequential 0-based ids, deterministic centers
and an uncovered flag (100 grids for range 200 and sensor range 20); the
`create_grids` function of the disaster variant likewise creates
`side²` grids with `side = floor(robotRange/sensorRange)`, clamped to the
grid-table capacity.  (The src/mobile-robot.c variant does not; see the
counterexample.) -/
theorem claim7_grid_partition :
    (∀ c : Coord,
      initGridDbApp1 c =
        (List.range 100).map fun k =>
          { gridId := k
            center := ⟨c.x - 100 + (k % 10) * 20 + 10, c.y - 100 + (k / 10) * 20 + 10⟩
            status := 0 }) ∧
    (200 / 20 : Nat) * (200 / 20) = 100 ∧
    (∀ r rs maxG : Nat, ∀ cx cy : Int,
      (createGridsD r rs maxG cx cy).length = min ((r / rs) * (r / rs)) maxG) ∧
    (createGridsD 200 20 100 0 0).length = 100 := by
  refine ⟨?_, rfl, ?_, rfl⟩
  · intro c
    unfold initGridDbApp1
    rw [range_flatMap_row_major (fun gy gx =>
      ({ gridId := gy * 10 + gx
         center := ⟨c.x - 100 + gx * 20 + 10, c.y - 100 + gy * 20 + 10⟩
         status := 0 } : GridRec))]
    refine List.map_congr_left fun k hk => ?_
    rw [List.mem_range] at hk
    have : k / 10 * 10 + k % 10 = k := Nat.div_add_mod' k 10
    simp [this]
  · intro r rs maxG cx cy
    simp [createGridsD]

/-- Counterexample to claim C7 as stated: `init_grid_db` of
src/mobile-robot.c, with the repository's own build constants (robot range
200, sensor range 50, grid-table capacity 16), creates
`floor(sqrt(floor(200/50)))² = 4` grids, not `floor(200/50)² = 16`; with
the sensor range 20 claimed in the scenario it would create 9 grids, not
100. -/
theorem claim7_counterexample :
    (initGridDbSrc 200 50 16 ⟨100, 100⟩).length = 4 ∧
    (200 / 50 : Nat) ^ 2 = 16 ∧
    (initGridDbSrc 200 50 16 ⟨100, 100⟩).length ≠ (200 / 50 : Nat) ^ 2 ∧
    (initGridDbSrc 200 20 16 ⟨100, 100⟩).length = 9 := by
  refine ⟨by decide, rfl, by decide, by decide⟩

/-! ## Claim C8 -/

/-- Claim C8 (amended): in app1.c, a sensor receiving a discovery broadcast
replies exactly once with its id, true position and current mode when its
position is within the broadcasting robot's perception range, and sends
nothing otherwise.  In src/sensor-node.c the discovery message carries no
robot position and `handle_robot_discovery` replies unconditionally (see
the counterexample). -/
theorem claim8_reply_within_range (sensorId : Nat) (sensorPos : Coord) (mode : Nat)
    (robotCoord : Coord) (robotId : Nat) :
    (distSq sensorPos robotCoord ≤ robotPerceptionRange ^ 2 →
      broadcastRecvSensor sensorId sensorPos mode robotCoord =
        [{ sid := sensorId, coord := sensorPos, status := mode }]) ∧
    (robotPerceptionRange ^ 2 < distSq sensorPos robotCoord →
      broadcastRecvSensor sensorId sensorPos mode robotCoord = []) ∧
    handleRobotDiscovery robotId sensorId sensorPos mode =
      [{ sid := sensorId, coord := sensorPos, status := mode }] := by
  refine ⟨fun h => ?_, fun h => ?_, rfl⟩
  · simp [broadcastRecvSensor, h]
  · simp [broadcastRecvSensor, not_le.mpr h]

/-- Witness for claim C8: a sensor at the origin replies to a robot at
(100, 0) and stays silent for a robot at (1000, 1000). -/
theorem claim8_witness :
    broadcastRecvSensor 9 ⟨0, 0⟩ 0 ⟨100, 0⟩ =
      [{ sid := 9, coord := ⟨0, 0⟩, status := 0 }] ∧
    broadcastRecvSensor 9 ⟨0, 0⟩ 0 ⟨1000, 1000⟩ = [] :=
  ⟨(claim8_reply_within_range 9 ⟨0, 0⟩ 0 ⟨100, 0⟩ 2).1 (by decide),
   (claim8_reply_within_range 9 ⟨0, 0⟩ 0 ⟨1000, 1000⟩ 2).2.1 (by decide)⟩

/-- Counterexample to claim C8 as stated: the src/sensor-node.c handler
sends a reply even when the sensor (at the origin) is far outside the
perception range of the broadcasting robot (at (1000, 1000)); the claim
requires no reply in that situation. -/
theorem claim8_counterexample :
    robotPerceptionRange ^ 2 < distSq ⟨0, 0⟩ (⟨1000, 1000⟩ : Coord) ∧
    (handleRobotDiscovery 2 9 ⟨0, 0⟩ 0).length = 1 := by
  refine ⟨by decide, rfl⟩

/-! ## Claim C1 -/

/-- Claim C1 (amended): in the app1.c report handler `unicast_recv_bs`,
if the reporting robot's assigned LA already has a non-zero covered-grid
count, handling the report leaves the LA table and the global covered-grid
total unchanged (first report wins; only the robots-finished counter still
increments).  The src/base-station.c handler `update_la_status` instead
overwrites the count unconditionally (see the counterexample). -/
theorem claim1_first_report_wins (st : BsSt) (robotId : Nat) (covered : Int)
    (p : Nat × Nat) (rec : LaRec)
    (hfind : st.robotDb.find? (fun r => r.1 == robotId) = some p)
    (hla : st.laDb.get? p.2 = some rec)
    (hcount : rec.count ≠ 0) :
    (unicastRecvBs st robotId covered).laDb = st.laDb ∧
    (unicastRecvBs st robotId covered).total = st.total := by
  simp only [unicastRecvBs, hfind, Option.map_some', hla]
  simp [hcount]

/-- Witness for claim C1: a duplicate report for an LA already recorded
with 7 covered grids changes neither the LA table nor the total. -/
theorem claim1_witness :
    (unicastRecvBs ⟨[⟨0, ⟨100, 100⟩, 7⟩], [(2, 0)], 7, 0⟩ 2 9).laDb =
      [⟨0, ⟨100, 100⟩, 7⟩] ∧
    (unicastRecvBs ⟨[⟨0, ⟨100, 100⟩, 7⟩], [(2, 0)], 7, 0⟩ 2 9).total = 7 :=
  claim1_first_report_wins ⟨[⟨0, ⟨100, 100⟩, 7⟩], [(2, 0)], 7, 0⟩ 2 9 (2, 0)
    ⟨0, ⟨100, 100⟩, 7⟩ rfl rfl (by decide)

/-- Counterexample to claim C1 as stated: `update_la_status` of
src/base-station.c, on a late/duplicate report carrying count 7 for an LA
whose covered-grid count is already 5, overwrites the count and changes the
global total — the handler has no first-writer-wins guard. -/
theorem claim1_counterexample :
    (updateLaStatus ⟨[⟨1, 100, 100, 5⟩], [(2, 1)], 5⟩ 2 7).laDb ≠
      [⟨1, 100, 100, 5⟩] ∧
    (updateLaStatus ⟨[⟨1, 100, 100, 5⟩], [(2, 1)], 5⟩ 2 7).total ≠ 5 := by
  refine ⟨?_, ?_⟩ <;> decide

/-! ## Claim C10 -/

/-- Updating one LA record changes the table sum by the difference of the
covered-grid counts. -/
theorem laSum_set (l : List LaRec) : ∀ (i : Nat) (rec rec' : LaRec),
    l[i]? = some rec →
    laSum (l.set i rec') = laSum l - rec.count + rec'.count := by
  induction l with
  | nil => intro i rec rec' h; simp at h
  | cons a l ih =>
    intro i rec rec' h
    cases i with
    | zero =>
      simp only [List.getElem?_cons_zero, Option.some_inj] at h
      subst h
      simp only [List.set_cons_zero, laSum, List.map_cons, List.sum_cons]
      ring
    | succ n =>
      simp only [List.getElem?_cons_succ] at h
      have := ih n rec rec' h
      simp only [List.set_cons_succ, laSum, List.map_cons, List.sum_cons] at *
      omega

/-- Claim C10: after every execution of the base-station report handler the
global covered-grid total equals the sum of the per-LA counts.  For app1.c
(`unicast_recv_bs`) the equality is preserved by every report and holds for
the freshly initialized table; for src/base-station.c (`update_la_status`,
whose total is a `uint8_t`) the preserved equality is modulo 256. -/
theorem claim10_total_consistency :
    (∀ (st : BsSt) (robotId : Nat) (covered : Int),
      st.total = laSum st.laDb →
      (unicastRecvBs st robotId covered).total =
        laSum (unicastRecvBs st robotId covered).laDb) ∧
    (∀ (st : Bs2St) (robotId covered : Nat),
      st.total = sumNoGrid st.laDb % 256 →
      (updateLaStatus st robotId covered).total =
        sumNoGrid (updateLaStatus st robotId covered).laDb % 256) ∧
    laSum (initLaDbApp1 1000 1000 200) = 0 := by
  refine ⟨?_, ?_, by decide⟩
  · intro st robotId covered hinv
    unfold unicastRecvBs
    dsimp only
    split
    next la heq =>
      split
      next rec heq2 =>
        split_ifs with hc
        · rw [List.get?_eq_getElem?] at heq2
          have hset := laSum_set st.laDb la rec { rec with count := covered } heq2
          show st.total + covered = laSum (st.laDb.set la { rec with count := covered })
          rw [hset, hinv, hc]
          ring
        · exact hinv
      next heq2 => exact hinv
    next heq => exact hinv
  · intro st robotId covered hinv
    unfold updateLaStatus
    dsimp only
    split
    next heq => exact hinv
    next rp heq =>
      split
      next heq2 => exact hinv
      next j heq2 =>
        split
        next e heq3 => rfl
        next heq3 => exact hinv

/-- Witness for claim C10: the invariant is preserved at a concrete first
report (app1.c) and at a concrete overwriting report (src variant). -/
theorem claim10_witness :
    (unicastRecvBs ⟨[⟨0, ⟨100, 100⟩, 0⟩], [(2, 0)], 0, 0⟩ 2 9).total =
      laSum (unicastRecvBs ⟨[⟨0, ⟨100, 100⟩, 0⟩], [(2, 0)], 0, 0⟩ 2 9).laDb ∧
    (updateLaStatus ⟨[⟨1, 100, 100, 5⟩], [(2, 1)], 5⟩ 2 7).total =
      sumNoGrid (updateLaStatus ⟨[⟨1, 100, 100, 5⟩], [(2, 1)], 5⟩ 2 7).laDb % 256 :=
  ⟨claim10_total_consistency.1 ⟨[⟨0, ⟨100, 100⟩, 0⟩], [(2, 0)], 0, 0⟩ 2 9 (by decide),
   claim10_total_consistency.2.1 ⟨[⟨1, 100, 100, 5⟩], [(2, 1)], 5⟩ 2 7 (by decide)⟩

/-! ## Claim C9 -/

/-- The energy-accounting step relation is a function of the pre-state and
the trace event. -/
theorem energyStep_functional {e e₁ e₂ : EnergyStats} {ev : EnergyEvent}
    (h1 : EnergyStep e ev e₁) (h2 : EnergyStep e ev e₂) : e₁ = e₂ := by
  cases h1 <;> cases h2 <;> rfl

/-- Claim C9: the per-node energy accounting is deterministic — two runs
that process identical event traces from the same initial accumulators end
with identical values of every accumulator and of the node's total energy.
Every quantity feeding an accumulator is a field of a trace event (a tick
duration, a message size, or a move distance), as the constructors of
`EnergyStep` show. -/
theorem claim9_energy_determinism (trace : List EnergyEvent) :
    ∀ e e₁ e₂ : EnergyStats, EnergyRun e trace e₁ → EnergyRun e trace e₂ →
      e₁ = e₂ ∧ totalNodeEnergy e₁ = totalNodeEnergy e₂ := by
  induction trace with
  | nil =>
    intro e e₁ e₂ h1 h2
    cases h1; cases h2
    exact ⟨rfl, rfl⟩
  | cons ev evs ih =>
    intro e e₁ e₂ h1 h2
    cases h1 with
    | cons s1 r1 =>
      cases h2 with
      | cons s2 r2 =>
        have h := energyStep_functional s1 s2
        subst h
        exact ih _ _ _ r1 r2

/-- Witness for claim C9: replaying a concrete two-event trace (a baseline
tick and a move) reproduces the same accumulators and total. -/
theorem claim9_witness :
    updMobilityEnergy (updBaselineEnergy ⟨0, 0, 0, 0, 0, 0, 0⟩ 1 128) 10 =
      updMobilityEnergy (updBaselineEnergy ⟨0, 0, 0, 0, 0, 0, 0⟩ 1 128) 10 ∧
    totalNodeEnergy (updMobilityEnergy (updBaselineEnergy ⟨0, 0, 0, 0, 0, 0, 0⟩ 1 128) 10) =
      totalNodeEnergy (updMobilityEnergy (updBaselineEnergy ⟨0, 0, 0, 0, 0, 0, 0⟩ 1 128) 10) :=
  claim9_energy_determinism [.baselineTick 1 128, .moveBy 10] ⟨0, 0, 0, 0, 0, 0, 0⟩ _ _
    (EnergyRun.cons (EnergyStep.baselineTick _ 1 128)
      (EnergyRun.cons (EnergyStep.moveBy _ 10) (EnergyRun.nil _)))
    (EnergyRun.cons (EnergyStep.baselineTick _ 1 128)
      (EnergyRun.cons (EnergyStep.moveBy _ 10) (EnergyRun.nil _)))

/-! ## Claim C3 -/

/-- The bounded collect loop never decreases stock and never exceeds the
capacity bound. -/
theorem boundedCollect_bounds (cap : Int) :
    ∀ (n : Nat) (stock : Int), stock ≤ cap →
      stock ≤ boundedCollect cap n stock ∧ boundedCollect cap n stock ≤ cap := by
  intro n
  induction n with
  | zero => intro stock h; exact ⟨le_refl _, h⟩
  | succ m ih =>
    intro stock h
    simp only [boundedCollect]
    split_ifs with hlt
    · have := ih (stock + 1) (by omega)
      exact ⟨by omega, this.2⟩
    · exact ⟨le_refl _, h⟩

/-- The app1.c Case-1 collect loop keeps stock between its initial value
and the capacity. -/
theorem collectLoop_stock_bounds :
    ∀ (ids : List Nat) (db : List SensorRec) (stock : Int),
      stock ≤ robotStockCapacity →
      stock ≤ (collectLoop ids db stock).2.1 ∧
        (collectLoop ids db stock).2.1 ≤ robotStockCapacity := by
  intro ids
  induction ids with
  | nil => intro db stock h; exact ⟨le_refl _, h⟩
  | cons sid rest ih =>
    intro db stock h
    simp only [collectLoop]
    split_ifs with hlt
    · rcases hr : removeFirstSensor db sid with _ | ⟨db', c⟩
      · exact ih db stock h
      · dsimp only
        have := ih db' (stock + 1) (by omega)
        exact ⟨by omega, this.2⟩
    · exact ⟨le_refl _, h⟩

/-- The app1.c Case-3 collect loop keeps stock between its initial value
and the capacity. -/
theorem collectLoopSkip_stock_bounds (skip : Nat) :
    ∀ (ids : List Nat) (db : List SensorRec) (stock : Int),
      stock ≤ robotStockCapacity →
      stock ≤ (collectLoopSkip skip ids db stock).2.1 ∧
        (collectLoopSkip skip ids db stock).2.1 ≤ robotStockCapacity := by
  intro ids
  induction ids with
  | nil => intro db stock h; exact ⟨le_refl _, h⟩
  | cons sid rest ih =>
    intro db stock h
    simp only [collectLoopSkip]
    split_ifs with hskip hlt
    · exact ih db stock h
    · rcases hr : removeFirstSensor db sid with _ | ⟨db', c⟩
      · exact ih db stock h
      · dsimp only
        have := ih db' (stock + 1) (by omega)
        exact ⟨by omega, this.2⟩
    · exact ⟨le_refl _, h⟩

/-- The four-case dispatch preserves `0 ≤ stock ≤ capacity`. -/
theorem app1ApplyCase_stock_bounds (st : RobotSt) (t : Nat)
    (h0 : 0 ≤ st.stock) (h1 : st.stock ≤ robotStockCapacity) :
    0 ≤ (app1ApplyCase st t).1.stock ∧
      (app1ApplyCase st t).1.stock ≤ robotStockCapacity := by
  unfold app1ApplyCase
  dsimp only
  split_ifs with hc1 hc2 hc3
  · dsimp only
    have hb := collectLoop_stock_bounds (coLocatedIds st.pos st.sensorDb)
      st.sensorDb (st.stock - 1) (by omega)
    exact ⟨by omega, hb.2⟩
  · dsimp only
    exact ⟨by omega, by omega⟩
  · dsimp only
    have hb := collectLoopSkip_stock_bounds (coLocatedIds st.pos st.sensorDb).headI
      (coLocatedIds st.pos st.sensorDb) st.sensorDb st.stock h1
    exact ⟨by omega, hb.2⟩
  · exact ⟨h0, h1⟩

/-- One dispersion-loop iteration preserves `0 ≤ stock ≤ capacity`. -/
theorem app1DispersionIter_stock_bounds (st : RobotSt) (r : RobotSt × List SensorCmd)
    (h : app1DispersionIter st = some r)
    (h0 : 0 ≤ st.stock) (h1 : st.stock ≤ robotStockCapacity) :
    0 ≤ r.1.stock ∧ r.1.stock ≤ robotStockCapacity := by
  unfold app1DispersionIter at h
  split_ifs at h with hnp
  rcases hfind : findNearestUncoveredGrid st.pos st.grids with _ | tg
  · rw [hfind] at h; exact absurd h (by simp)
  · rw [hfind] at h
    dsimp only at h
    have hb := app1ApplyCase_stock_bounds { st with pos := tg.2.center } tg.1 h0 h1
    cases h
    simpa using hb

/-- Claim C3: for every reachable robot state under any sequence of
dispersion operations (dispersion-loop iterations and end-of-phase stock
resets), `0 ≤ stock ≤ capacity`: deployments decrement stock only when it
is positive and every collect loop stops at the capacity.  The same bounds
hold for `dispersion_case1` of src/mobile-robot.c (with its `ROBOT_CAPACITY
= 15`), for any values of its simulation PRNG draws. -/
theorem claim3_stock_invariant :
    (∀ (ops : List RobotOp) (st : RobotSt),
      0 ≤ st.stock → st.stock ≤ robotStockCapacity →
      0 ≤ (runRobotOps st ops).stock ∧
        (runRobotOps st ops).stock ≤ robotStockCapacity) ∧
    (∀ (st : SrcRobotSt) (t rand1 rand2 : Nat),
      0 ≤ st.stock → st.stock ≤ 15 →
      0 ≤ (dispersionCase1Src st t rand1 rand2).stock ∧
        (dispersionCase1Src st t rand1 rand2).stock ≤ 15) := by
  constructor
  · intro ops
    induction ops with
    | nil => exact fun st h0 h1 => ⟨h0, h1⟩
    | cons op rest ih =>
      intro st h0 h1
      cases op with
      | disperse =>
        simp only [runRobotOps]
        rcases hi : app1DispersionIter st with _ | r
        · exact ih st h0 h1
        · have hb := app1DispersionIter_stock_bounds st r hi h0 h1
          exact ih r.1 hb.1 hb.2
      | resetStock =>
        simp only [runRobotOps]
        exact ih _ (by norm_num [robotInitialStock])
          (by norm_num [robotInitialStock, robotStockCapacity])
  · intro st t rand1 rand2 h0 h1
    unfold dispersionCase1Src
    split
    next => exact ⟨h0, h1⟩
    next g heq =>
      split_ifs with hs
      · dsimp only
        have hb := boundedCollect_bounds 15
          (countSensorsInGrid
            (st.sensorDb ++ [{ sid := 100 + st.sensorDb.length, coord := g.center, status := 1 }])
            g.center rand1 rand2)
          (st.stock - 1) (by omega)
        exact ⟨by omega, hb.2⟩
      · exact ⟨h0, h1⟩

/-- Witness for claim C3: a concrete operation sequence (two iterations,
a reset, one more iteration) from stock 10, and a concrete src-variant
Case-1 step, stay within `[0, 15]`. -/
theorem claim3_witness :
    (0 ≤ (runRobotOps
        ⟨⟨0, 0⟩, 10, [⟨5, ⟨0, 0⟩, 0⟩], [⟨0, ⟨0, 0⟩, 0⟩, ⟨1, ⟨30, 0⟩, 0⟩], 2⟩
        [RobotOp.disperse, RobotOp.disperse, RobotOp.resetStock, RobotOp.disperse]).stock ∧
      (runRobotOps
        ⟨⟨0, 0⟩, 10, [⟨5, ⟨0, 0⟩, 0⟩], [⟨0, ⟨0, 0⟩, 0⟩, ⟨1, ⟨30, 0⟩, 0⟩], 2⟩
        [RobotOp.disperse, RobotOp.disperse, RobotOp.resetStock, RobotOp.disperse]).stock ≤
        robotStockCapacity) ∧
    (0 ≤ (dispersionCase1Src ⟨2, [⟨5, ⟨0, 0⟩, 0⟩], [⟨0, ⟨0, 0⟩, 0⟩]⟩ 0 3 1).stock ∧
      (dispersionCase1Src ⟨2, [⟨5, ⟨0, 0⟩, 0⟩], [⟨0, ⟨0, 0⟩, 0⟩]⟩ 0 3 1).stock ≤ 15) :=
  ⟨claim3_stock_invariant.1
      [RobotOp.disperse, RobotOp.disperse, RobotOp.resetStock, RobotOp.disperse]
      ⟨⟨0, 0⟩, 10, [⟨5, ⟨0, 0⟩, 0⟩], [⟨0, ⟨0, 0⟩, 0⟩, ⟨1, ⟨30, 0⟩, 0⟩], 2⟩
      (by decide) (by decide),
   claim3_stock_invariant.2 ⟨2, [⟨5, ⟨0, 0⟩, 0⟩], [⟨0, ⟨0, 0⟩, 0⟩]⟩ 0 3 1
      (by decide) (by decide)⟩

/-! ## Claim C4 -/

/-- Deploying a sensor record does not change the move budget. -/
theorem dDeploySensor_noP (st : DRobotSt) (t si : Nat) :
    (dDeploySensor st t si).noP = st.noP := by
  unfold dDeploySensor
  split <;> rfl

/-- Deploying a sensor record does not change the grid table. -/
theorem dDeploySensor_grids (st : DRobotSt) (t si : Nat) :
    (dDeploySensor st t si).grids = st.grids := by
  unfold dDeploySensor
  split <;> rfl

/-- Unfolding `uncoveredCount` over a cons cell. -/
theorem uncoveredCount_cons (g : GridRec) (l : List GridRec) :
    uncoveredCount (g :: l) =
      (if g.status == 0 then 1 else 0) + uncoveredCount l := by
  simp only [uncoveredCount, List.filter_cons]
  split <;> (simp; try omega)

/-- Overwriting one grid record lowers the uncovered count by at most 1. -/
theorem uncoveredCount_set (grids : List GridRec) :
    ∀ (t : Nat) (g' : GridRec),
      uncoveredCount grids ≤ uncoveredCount (grids.set t g') + 1 := by
  induction grids with
  | nil => intro t g'; simp [uncoveredCount]
  | cons a l ih =>
    intro t g'
    cases t with
    | zero =>
      simp only [List.set_cons_zero, uncoveredCount_cons]
      have := ih 0 g'
      split_ifs <;> omega
    | succ n =>
      simp only [List.set_cons_succ, uncoveredCount_cons]
      have := ih n g'
      omega

/-- Marking a grid covered lowers the uncovered count by at most 1. -/
theorem dMarkCovered_uncovered (grids : List GridRec) (t : Nat) :
    uncoveredCount grids ≤ uncoveredCount (dMarkCovered grids t) + 1 := by
  unfold dMarkCovered
  split
  · exact uncoveredCount_set grids t _
  · omega

/-- `execute_dispersion_for_grid` decrements `no_permissible_moves` by
exactly 1 whichever of the four cases applies. -/
theorem execDispersionForGrid_noP (maxS : Int) (st : DRobotSt) (t : Nat) :
    (execDispersionForGrid maxS st t).noP = st.noP - 1 := by
  unfold execDispersionForGrid
  dsimp only
  split_ifs <;> simp [dDeploySensor_noP]

/-- `execute_dispersion_for_grid` covers at most one grid per visit. -/
theorem execDispersionForGrid_uncovered (maxS : Int) (st : DRobotSt) (t : Nat) :
    uncoveredCount st.grids ≤
      uncoveredCount (execDispersionForGrid maxS st t).grids + 1 := by
  unfold execDispersionForGrid
  dsimp only
  split_ifs <;>
    simp [dDeploySensor_grids, dMarkCovered_uncovered]

/-- When an uncovered grid exists, the disaster-variant grid search finds
one. -/
theorem findNearestUncoveredD_isSome (grids : List GridRec)
    (h : 0 < uncoveredCount grids) : (findNearestUncoveredD grids).isSome := by
  rcases hf : findNearestUncoveredD grids with _ | t
  · exfalso
    have hall := List.findIdx?_eq_none_iff.mp hf
    have hnil : grids.filter (fun g => g.status == 0) = [] := by
      rw [List.filter_eq_nil_iff]
      intro a ha
      simpa using hall a ha
    rw [uncoveredCount, hnil] at h
    simp at h
  · simp

/-- The four-case dispatch of app1.c does not change the move budget (the
decrement happens in the loop, after the dispatch). -/
theorem app1ApplyCase_noP (st : RobotSt) (t : Nat) :
    (app1ApplyCase st t).1.noP = st.noP := by
  unfold app1ApplyCase
  dsimp only
  split_ifs <;> rfl

/-- Claim C4: the move budget `NO_P` is decremented by exactly 1 per grid
visit regardless of which of the four cases applies, so after every
dispersion-loop iteration `movesMade + NO_P` equals its initial value
(`gridsPerLA` when dispersion starts with `NO_P = gridsPerLA`): stated for
`execute_dispersion_for_grid` and the dispersion loop of the disaster
variant (whose runs satisfy `NO_P ≤ #uncovered grids`, as the initial state
`NO_P = gridsPerLA` does), and for the dispersion iteration of app1.c. -/
theorem claim4_move_budget :
    (∀ (maxS : Int) (st : DRobotSt) (t : Nat),
      (execDispersionForGrid maxS st t).noP = st.noP - 1) ∧
    (∀ (st : RobotSt) (r : RobotSt × List SensorCmd),
      app1DispersionIter st = some r → r.1.noP = st.noP - 1 ∧ 0 < st.noP) ∧
    (∀ (maxS : Int) (fuel : Nat) (st : DRobotSt),
      st.noP ≤ uncoveredCount st.grids →
      (disasterRun maxS st fuel).2 + (disasterRun maxS st fuel).1.noP = st.noP) := by
  refine ⟨execDispersionForGrid_noP, ?_, ?_⟩
  · intro st r h
    unfold app1DispersionIter at h
    split_ifs at h with hnp
    rcases hf : findNearestUncoveredGrid st.pos st.grids with _ | tg
    · rw [hf] at h; exact absurd h (by simp)
    · rw [hf] at h
      dsimp only at h
      cases h
      refine ⟨?_, hnp⟩
      dsimp only
      rw [app1ApplyCase_noP]
  · intro maxS fuel
    induction fuel with
    | zero => intro st h; simp [disasterRun]
    | succ f ih =>
      intro st h
      simp only [disasterRun]
      split_ifs with hnp
      · rcases hf : findNearestUncoveredD st.grids with _ | t
        · exfalso
          have hs := findNearestUncoveredD_isSome st.grids (by omega)
          rw [hf] at hs
          simp at hs
        · dsimp only
          have hex := execDispersionForGrid_noP maxS st t
          have hun := execDispersionForGrid_uncovered maxS st t
          have hrec := ih (execDispersionForGrid maxS st t) (by omega)
          omega
      · simp

/-- Witness for claim C4: a concrete two-grid dispersion run (both visits
hit Case 4) makes 2 moves and ends with `NO_P = 0`, and a concrete app1.c
iteration decrements `NO_P` from 3 to 2. -/
theorem claim4_witness :
    (disasterRun 15 ⟨[⟨1, ⟨0, 0⟩, 0⟩, ⟨2, ⟨20, 0⟩, 0⟩], [], 0, 2⟩ 5).2 +
      (disasterRun 15 ⟨[⟨1, ⟨0, 0⟩, 0⟩, ⟨2, ⟨20, 0⟩, 0⟩], [], 0, 2⟩ 5).1.noP = 2 ∧
    (execDispersionForGrid 15 ⟨[⟨1, ⟨0, 0⟩, 0⟩], [], 0, 7⟩ 0).noP = 6 ∧
    ((app1DispersionIter
        ⟨⟨0, 0⟩, 2, [], [⟨0, ⟨50, 0⟩, 0⟩, ⟨1, ⟨10, 0⟩, 0⟩, ⟨2, ⟨10, 0⟩, 0⟩], 3⟩).map
      (fun r => r.1.noP)) = some 2 := by
  refine ⟨claim4_move_budget.2.2 15 5 ⟨[⟨1, ⟨0, 0⟩, 0⟩, ⟨2, ⟨20, 0⟩, 0⟩], [], 0, 2⟩ (by decide),
    ?_, ?_⟩
  · have := claim4_move_budget.1 15 ⟨[⟨1, ⟨0, 0⟩, 0⟩], [], 0, 7⟩ 0
    simpa using this
  · have h1 := (claim4_move_budget.2.1
      ⟨⟨0, 0⟩, 2, [], [⟨0, ⟨50, 0⟩, 0⟩, ⟨1, ⟨10, 0⟩, 0⟩, ⟨2, ⟨10, 0⟩, 0⟩], 3⟩
      (⟨⟨⟨10, 0⟩, 1, [], [⟨0, ⟨50, 0⟩, 0⟩, ⟨1, ⟨10, 0⟩, 1⟩, ⟨2, ⟨10, 0⟩, 0⟩], 2⟩, []⟩)
      (by decide)).1
    rw [show app1DispersionIter
        ⟨⟨0, 0⟩, 2, [], [⟨0, ⟨50, 0⟩, 0⟩, ⟨1, ⟨10, 0⟩, 0⟩, ⟨2, ⟨10, 0⟩, 0⟩], 3⟩ =
      some ⟨⟨⟨10, 0⟩, 1, [], [⟨0, ⟨50, 0⟩, 0⟩, ⟨1, ⟨10, 0⟩, 1⟩, ⟨2, ⟨10, 0⟩, 0⟩], 2⟩, []⟩
      by decide]
    exact congrArg (fun n => some n) (h1.trans rfl)

/-! ## Claim C2 -/

/-- Ids listed by `nonzeroSids` are non-zero. -/
theorem ne_zero_of_mem_nonzeroSids {s : Nat} {db : List SensorRec}
    (h : s ∈ nonzeroSids db) : s ≠ 0 := by
  unfold nonzeroSids at h
  rcases List.mem_map.mp h with ⟨r, hr, rfl⟩
  have := List.of_mem_filter hr
  simpa using this

/-- The co-located ids are a sublist of the non-empty slot ids. -/
theorem coLocatedIds_sublist (pos : Coord) (db : List SensorRec) :
    (coLocatedIds pos db).Sublist (nonzeroSids db) := by
  unfold coLocatedIds nonzeroSids
  refine List.Sublist.map _ (List.monotone_filter_right db ?_)
  intro r hr
  simp only [coLocatedHere, Bool.and_eq_true] at hr
  exact hr.1

/-- Unfolding `nonzeroSids` over a cons cell. -/
theorem nonzeroSids_cons (r : SensorRec) (rest : List SensorRec) :
    nonzeroSids (r :: rest) =
      if r.sid = 0 then nonzeroSids rest else r.sid :: nonzeroSids rest := by
  by_cases h : r.sid = 0 <;> simp [nonzeroSids, List.filter_cons, h]

/-- The inner search of the collect loop: when the requested non-zero id is
present, it empties exactly one slot (so the non-empty id count drops by
one) and leaves the membership of every other id unchanged. -/
theorem removeFirstSensor_spec (sid : Nat) (hsid : sid ≠ 0) :
    ∀ db : List SensorRec, sid ∈ nonzeroSids db →
      ∃ db' c, removeFirstSensor db sid = some (db', c) ∧
        (nonzeroSids db').length + 1 = (nonzeroSids db).length ∧
        (∀ s, s ≠ sid → (s ∈ nonzeroSids db' ↔ s ∈ nonzeroSids db)) := by
  intro db
  induction db with
  | nil => intro h; simp [nonzeroSids] at h
  | cons r rest ih =>
    intro h
    by_cases hr : r.sid = sid
    · refine ⟨{ r with sid := 0 } :: rest, r.coord, ?_, ?_, ?_⟩
      · simp [removeFirstSensor, hr]
      · rw [nonzeroSids_cons, nonzeroSids_cons]
        simp [hr, hsid]
      · intro s hs
        rw [nonzeroSids_cons, nonzeroSids_cons]
        simp only [hr, if_pos rfl, if_neg hsid]
        simp [List.mem_cons, hs]
    · have hmem : sid ∈ nonzeroSids rest := by
        rw [nonzeroSids_cons] at h
        split_ifs at h with h0
        · exact h
        · rcases List.mem_cons.mp h with h1 | h1
          · exact absurd h1.symm hr
          · exact h1
      rcases ih hmem with ⟨rest', c, hrem, hlen, hiff⟩
      refine ⟨r :: rest', c, ?_, ?_, ?_⟩
      · simp [removeFirstSensor, hr, hrem]
      · rw [nonzeroSids_cons, nonzeroSids_cons]
        split_ifs with h0 <;> simpa using hlen
      · intro s hs
        rw [nonzeroSids_cons, nonzeroSids_cons]
        split_ifs with h0
        · exact hiff s hs
        · simp [List.mem_cons, hiff s hs]

/-- Full behaviour of the app1.c Case-1 collect loop on a duplicate-free
id list whose ids are all present in the sensor table: the final stock is
`min capacity (stock + #ids)`, one collect command is sent per unit of
stock gained, every command is a collect (`activate = 0`) for one of the
requested ids, and each command empties exactly one table slot. -/
theorem collectLoop_spec :
    ∀ (ids : List Nat) (db : List SensorRec) (stock : Int),
      ids.Nodup → (∀ s ∈ ids, s ∈ nonzeroSids db) →
      stock ≤ robotStockCapacity →
      (collectLoop ids db stock).2.1 = min robotStockCapacity (stock + ids.length) ∧
      ((collectLoop ids db stock).2.2.length : Int) = (collectLoop ids db stock).2.1 - stock ∧
      (∀ c ∈ (collectLoop ids db stock).2.2, c.activate = 0 ∧ c.sid ∈ ids) ∧
      (nonzeroSids (collectLoop ids db stock).1).length +
        (collectLoop ids db stock).2.2.length = (nonzeroSids db).length := by
  intro ids
  induction ids with
  | nil =>
    intro db stock _ _ hcap
    simp only [collectLoop]
    refine ⟨by simp; omega, by simp, by simp, by simp⟩
  | cons sid rest ih =>
    intro db stock hnodup hmem hcap
    have hsid0 : sid ≠ 0 := ne_zero_of_mem_nonzeroSids (hmem sid (by simp))
    simp only [collectLoop]
    split_ifs with hlt
    · rcases removeFirstSensor_spec sid hsid0 db (hmem sid (by simp)) with
        ⟨db', c, hrem, hlen, hiff⟩
      rw [hrem]
      dsimp only
      have hmem' : ∀ s ∈ rest, s ∈ nonzeroSids db' := by
        intro s hs
        have hne : s ≠ sid := by
          intro e; subst e; exact (List.nodup_cons.mp hnodup).1 hs
        exact (hiff s hne).mpr (hmem s (by simp [hs]))
      have hrec := ih db' (stock + 1) (List.nodup_cons.mp hnodup).2 hmem' (by omega)
      refine ⟨?_, ?_, ?_, ?_⟩
      · rw [hrec.1]
        simp only [List.length_cons]
        omega
      · simp only [List.length_cons]
        have := hrec.2.1
        push_cast at *
        omega
      · intro cmd hc
        rcases List.mem_cons.mp hc with h1 | h1
        · subst h1; exact ⟨rfl, by simp⟩
        · have := hrec.2.2.1 cmd h1
          exact ⟨this.1, by simp [this.2]⟩
      · simp only [List.length_cons]
        have := hrec.2.2.2
        omega
    · simp only [List.length_cons]
      refine ⟨by simp; omega, by simp, by simp, by simp⟩

/-- Marking an uncovered grid covered updates exactly its status flag. -/
theorem markCovered_get (grids : List GridRec) (t : Nat) (g : GridRec)
    (hg : grids[t]? = some g) (hunc : g.status = 0) :
    (markCovered grids t)[t]? = some { g with status := 1 } := by
  unfold markCovered
  rw [hg]
  dsimp only
  rw [if_pos hunc]
  have hlt : t < grids.length := by
    by_contra hge
    rw [List.getElem?_eq_none (by omega)] at hg
    exact absurd hg (by simp)
  simp [List.getElem?_set_self', List.getElem?_eq_getElem hlt]

/-- Claim C2 (amended): a dispersion step of app1.c at a grid where stock
is positive and the co-located sensor set (the table entries within
`sensorRange/2` of the grid center — the code does not filter by mode) is
non-empty decrements stock by 1, marks the visited grid covered, and
collects co-located sensors one at a time — each collect removes one slot
from the sensor table, increments stock and sends that sensor a collect
command — stopping exactly when the co-located set is exhausted or stock
reaches capacity: the final stock is `min capacity (stock - 1 + n)` for `n`
co-located sensors and the number of collect commands equals the stock
gained. -/
theorem claim2_case1_collect (st : RobotSt) (t : Nat) (g : GridRec)
    (hstock : 0 < st.stock) (hcap : st.stock ≤ robotStockCapacity)
    (hco : 0 < (coLocatedIds st.pos st.sensorDb).length)
    (hnodup : (nonzeroSids st.sensorDb).Nodup)
    (hg : st.grids[t]? = some g) (hguncov : g.status = 0) :
    (app1ApplyCase st t).1.stock =
      min robotStockCapacity (st.stock - 1 + (coLocatedIds st.pos st.sensorDb).length) ∧
    ((app1ApplyCase st t).2.length : Int) = (app1ApplyCase st t).1.stock - (st.stock - 1) ∧
    (∀ c ∈ (app1ApplyCase st t).2,
      c.activate = 0 ∧ c.sid ∈ coLocatedIds st.pos st.sensorDb) ∧
    (nonzeroSids (app1ApplyCase st t).1.sensorDb).length + (app1ApplyCase st t).2.length =
      (nonzeroSids st.sensorDb).length ∧
    (app1ApplyCase st t).1.grids[t]? = some { g with status := 1 } := by
  have hsub := coLocatedIds_sublist st.pos st.sensorDb
  have hspec := collectLoop_spec (coLocatedIds st.pos st.sensorDb) st.sensorDb (st.stock - 1)
    (hnodup.sublist hsub) (fun s hs => hsub.subset hs) (by omega)
  unfold app1ApplyCase
  rw [if_pos ⟨hstock, hco⟩]
  dsimp only
  exact ⟨hspec.1, hspec.2.1, hspec.2.2.1, hspec.2.2.2, markCovered_get st.grids t g hg hguncov⟩

/-- Witness for claim C2 (Scenario B): a robot with stock 1 and capacity 15
at a grid with 3 co-located idle sensors ends with stock `min 15 (0 + 3) =
3` and sends 3 collect commands, and the grid is covered. -/
theorem claim2_witness :
    (app1ApplyCase ⟨⟨0, 0⟩, 1,
        [⟨5, ⟨3, 4⟩, 0⟩, ⟨6, ⟨0, 0⟩, 0⟩, ⟨7, ⟨-5, 5⟩, 0⟩], [⟨0, ⟨0, 0⟩, 0⟩], 3⟩ 0).1.stock =
      min robotStockCapacity (1 - 1 +
        (coLocatedIds ⟨0, 0⟩ [⟨5, ⟨3, 4⟩, 0⟩, ⟨6, ⟨0, 0⟩, 0⟩, ⟨7, ⟨-5, 5⟩, 0⟩]).length) ∧
    ((app1ApplyCase ⟨⟨0, 0⟩, 1,
        [⟨5, ⟨3, 4⟩, 0⟩, ⟨6, ⟨0, 0⟩, 0⟩, ⟨7, ⟨-5, 5⟩, 0⟩], [⟨0, ⟨0, 0⟩, 0⟩], 3⟩ 0).2.length : Int) =
      (app1ApplyCase ⟨⟨0, 0⟩, 1,
        [⟨5, ⟨3, 4⟩, 0⟩, ⟨6, ⟨0, 0⟩, 0⟩, ⟨7, ⟨-5, 5⟩, 0⟩], [⟨0, ⟨0, 0⟩, 0⟩], 3⟩ 0).1.stock - (1 - 1) ∧
    (app1ApplyCase ⟨⟨0, 0⟩, 1,
        [⟨5, ⟨3, 4⟩, 0⟩, ⟨6, ⟨0, 0⟩, 0⟩, ⟨7, ⟨-5, 5⟩, 0⟩], [⟨0, ⟨0, 0⟩, 0⟩], 3⟩ 0).1.grids[0]? =
      some ⟨0, ⟨0, 0⟩, 1⟩ := by
  have h := claim2_case1_collect
    ⟨⟨0, 0⟩, 1, [⟨5, ⟨3, 4⟩, 0⟩, ⟨6, ⟨0, 0⟩, 0⟩, ⟨7, ⟨-5, 5⟩, 0⟩], [⟨0, ⟨0, 0⟩, 0⟩], 3⟩ 0
    ⟨0, ⟨0, 0⟩, 0⟩ (by decide) (by decide) (by decide) (by decide) (by decide) (by decide)
  exact ⟨h.1, h.2.1, h.2.2.2.2⟩

/-- Counterexample to claim C2 as stated: the claim's Case-1 trigger and
collect set is "the co-located **idle**-sensor set", but app1.c computes
the co-located set without inspecting the sensors' reported mode.  At a
grid holding one active and one idle co-located sensor, the spec's idle set
has one element, yet the code sends two collect commands. -/
theorem claim2_counterexample :
    (specIdleCoLocated ⟨0, 0⟩ [⟨5, ⟨0, 0⟩, 1⟩, ⟨7, ⟨0, 0⟩, 0⟩]).length = 1 ∧
    (app1ApplyCase ⟨⟨0, 0⟩, 1, [⟨5, ⟨0, 0⟩, 1⟩, ⟨7, ⟨0, 0⟩, 0⟩], [⟨0, ⟨0, 0⟩, 0⟩], 3⟩ 0).2.length = 2 ∧
    ¬((app1ApplyCase ⟨⟨0, 0⟩, 1, [⟨5, ⟨0, 0⟩, 1⟩, ⟨7, ⟨0, 0⟩, 0⟩], [⟨0, ⟨0, 0⟩, 0⟩], 3⟩ 0).2.length =
      (specIdleCoLocated ⟨0, 0⟩ [⟨5, ⟨0, 0⟩, 1⟩, ⟨7, ⟨0, 0⟩, 0⟩]).length) := by
  refine ⟨by decide, by decide, by decide⟩

/-! ## Claim C5 -/

/-- Full characterization of the nearest-uncovered-grid scan: a returned
candidate is uncovered, comes from the accumulator or from the scanned list
(at its real index); it is at least as close as the accumulator (strictly
closer unless it *is* the accumulator) and at least as close as every
uncovered scanned grid, with ties going to the smaller index. -/
theorem findNearestGo_spec (pos : Coord) :
    ∀ (l : List GridRec) (k : Nat) (acc : Option (Nat × GridRec)),
      (∀ j h, acc = some (j, h) → j < k ∧ h.status = 0) →
      ∀ i g, findNearestGo pos l k acc = some (i, g) →
        g.status = 0 ∧
        (acc = some (i, g) ∨ ∃ off, l[off]? = some g ∧ i = k + off) ∧
        (∀ j h, acc = some (j, h) →
          distSq pos g.center < distSq pos h.center ∨
            (distSq pos g.center = distSq pos h.center ∧ i = j ∧ g = h)) ∧
        (∀ off h, l[off]? = some h → h.status = 0 →
          distSq pos g.center < distSq pos h.center ∨
            (distSq pos g.center = distSq pos h.center ∧ i ≤ k + off)) := by
  intro l
  induction l with
  | nil =>
    intro k acc hacc i g hres
    simp only [findNearestGo] at hres
    refine ⟨(hacc i g hres).2, Or.inl hres, ?_, ?_⟩
    · intro j h hjh
      rw [hres] at hjh
      rcases Option.some_inj.mp hjh with ⟨⟩
      exact Or.inr ⟨rfl, rfl, rfl⟩
    · intro off h hoff
      simp at hoff
  | cons g₀ rest ih =>
    intro k acc hacc i g hres
    simp only [findNearestGo] at hres
    rcases acc with _ | ⟨j₀, h₀⟩
    · by_cases hg₀ : g₀.status = 0
      · -- uncovered head, empty accumulator: accumulator becomes (k, g₀)
        rw [if_pos hg₀] at hres
        dsimp only at hres
        have ihres := ih (k + 1) (some (k, g₀))
          (by intro j h hjh; rcases Option.some_inj.mp hjh with ⟨⟩; exact ⟨by omega, hg₀⟩)
          i g hres
        refine ⟨ihres.1, ?_, ?_, ?_⟩
        · rcases ihres.2.1 with h1 | ⟨off, hoff, hioff⟩
          · rcases Option.some_inj.mp h1 with ⟨⟩
            exact Or.inr ⟨0, by simpa using rfl, by omega⟩
          · exact Or.inr ⟨off + 1, by simpa using hoff, by omega⟩
        · intro j h hjh; simp at hjh
        · intro off h hoff hunc
          cases off with
          | zero =>
            simp only [List.getElem?_cons_zero, Option.some_inj] at hoff
            subst hoff
            rcases ihres.2.2.1 k g₀ rfl with h1 | h1
            · exact Or.inl h1
            · exact Or.inr ⟨h1.1, by omega⟩
          | succ m =>
            simp only [List.getElem?_cons_succ] at hoff
            have := ihres.2.2.2 m h hoff hunc
            rcases this with h1 | h1
            · exact Or.inl h1
            · exact Or.inr ⟨h1.1, by omega⟩
      · rw [if_neg hg₀] at hres
        have ihres := ih (k + 1) none (by simp) i g hres
        refine ⟨ihres.1, ?_, ?_, ?_⟩
        · rcases ihres.2.1 with h1 | ⟨off, hoff, hioff⟩
          · simp at h1
          · exact Or.inr ⟨off + 1, by simpa using hoff, by omega⟩
        · intro j h hjh; simp at hjh
        · intro off h hoff hunc
          cases off with
          | zero =>
            simp only [List.getElem?_cons_zero, Option.some_inj] at hoff
            subst hoff
            exact absurd hunc hg₀
          | succ m =>
            simp only [List.getElem?_cons_succ] at hoff
            rcases ihres.2.2.2 m h hoff hunc with h1 | h1
            · exact Or.inl h1
            · exact Or.inr ⟨h1.1, by omega⟩
    · have hj₀ := hacc j₀ h₀ rfl
      by_cases hg₀ : g₀.status = 0
      · rw [if_pos hg₀] at hres
        dsimp only at hres
        by_cases hd : distSq pos g₀.center < distSq pos h₀.center
        · rw [if_pos hd] at hres
          have ihres := ih (k + 1) (some (k, g₀))
            (by intro j h hjh; rcases Option.some_inj.mp hjh with ⟨⟩; exact ⟨by omega, hg₀⟩)
            i g hres
          have hvs := ihres.2.2.1 k g₀ rfl
          refine ⟨ihres.1, ?_, ?_, ?_⟩
          · rcases ihres.2.1 with h1 | ⟨off, hoff, hioff⟩
            · rcases Option.some_inj.mp h1 with ⟨⟩
              exact Or.inr ⟨0, by simpa using rfl, by omega⟩
            · exact Or.inr ⟨off + 1, by simpa using hoff, by omega⟩
          · intro j h hjh
            rcases Option.some_inj.mp hjh with ⟨⟩
            rcases hvs with h1 | h1
            · exact Or.inl (by omega)
            · exact Or.inl (by omega)
          · intro off h hoff hunc
            cases off with
            | zero =>
              simp only [List.getElem?_cons_zero, Option.some_inj] at hoff
              subst hoff
              rcases hvs with h1 | h1
              · exact Or.inl h1
              · exact Or.inr ⟨h1.1, by omega⟩
            | succ m =>
              simp only [List.getElem?_cons_succ] at hoff
              rcases ihres.2.2.2 m h hoff hunc with h1 | h1
              · exact Or.inl h1
              · exact Or.inr ⟨h1.1, by omega⟩
        · rw [if_neg hd] at hres
          have ihres := ih (k + 1) (some (j₀, h₀))
            (by intro j h hjh; rcases Option.some_inj.mp hjh with ⟨⟩; exact ⟨by omega, hj₀.2⟩)
            i g hres
          have hvs := ihres.2.2.1 j₀ h₀ rfl
          refine ⟨ihres.1, ?_, ?_, ?_⟩
          · rcases ihres.2.1 with h1 | ⟨off, hoff, hioff⟩
            · exact Or.inl h1
            · exact Or.inr ⟨off + 1, by simpa using hoff, by omega⟩
          · intro j h hjh
            rcases Option.some_inj.mp hjh with ⟨⟩
            exact hvs
          · intro off h hoff hunc
            cases off with
            | zero =>
              simp only [List.getElem?_cons_zero, Option.some_inj] at hoff
              subst hoff
              rcases hvs with h1 | h1
              · exact Or.inl (by omega)
              · rcases h1 with ⟨he, hi, hg⟩
                have hle := not_lt.mp hd
                have hjk := hj₀.1
                omega
            | succ m =>
              simp only [List.getElem?_cons_succ] at hoff
              rcases ihres.2.2.2 m h hoff hunc with h1 | h1
              · exact Or.inl h1
              · exact Or.inr ⟨h1.1, by omega⟩
      · rw [if_neg hg₀] at hres
        have ihres := ih (k + 1) (some (j₀, h₀))
          (by intro j h hjh; rcases Option.some_inj.mp hjh with ⟨⟩; exact ⟨by omega, hj₀.2⟩)
          i g hres
        refine ⟨ihres.1, ?_, ?_, ?_⟩
        · rcases ihres.2.1 with h1 | ⟨off, hoff, hioff⟩
          · exact Or.inl h1
          · exact Or.inr ⟨off + 1, by simpa using hoff, by omega⟩
        · intro j h hjh
          rcases Option.some_inj.mp hjh with ⟨⟩
          exact ihres.2.2.1 _ _ rfl
        · intro off h hoff hunc
          cases off with
          | zero =>
            simp only [List.getElem?_cons_zero, Option.some_inj] at hoff
            subst hoff
            exact absurd hunc hg₀
          | succ m =>
            simp only [List.getElem?_cons_succ] at hoff
            rcases ihres.2.2.2 m h hoff hunc with h1 | h1
            · exact Or.inl h1
            · exact Or.inr ⟨h1.1, by omega⟩

/-- The four-case dispatch does not move the robot (the move happens
before it, in the loop). -/
theorem app1ApplyCase_pos (st : RobotSt) (t : Nat) :
    (app1ApplyCase st t).1.pos = st.pos := by
  unfold app1ApplyCase
  dsimp only
  split_ifs <;> rfl

/-- Claim C5 (amended): at every iteration of the app1.c dispersion loop,
the grid the robot moves to is an uncovered grid whose Euclidean distance
from the robot's current position is minimal among all uncovered grids,
with ties broken by lowest grid index (grid ids equal their indices in
app1.c).  Distances are compared via their squares, which preserves `<`
and `=`.  (The disaster-variant selector does not satisfy this; see the
counterexample.) -/
theorem claim5_nearest_selection (st : RobotSt) (r : RobotSt × List SensorCmd)
    (h : app1DispersionIter st = some r) :
    ∃ i g, findNearestUncoveredGrid st.pos st.grids = some (i, g) ∧
      r.1.pos = g.center ∧ st.grids[i]? = some g ∧ g.status = 0 ∧
      ∀ j h', st.grids[j]? = some h' → h'.status = 0 →
        distSq st.pos g.center < distSq st.pos h'.center ∨
          (distSq st.pos g.center = distSq st.pos h'.center ∧ i ≤ j) := by
  unfold app1DispersionIter at h
  split_ifs at h with hnp
  rcases hf : findNearestUncoveredGrid st.pos st.grids with _ | ⟨i, g⟩
  · rw [hf] at h; exact absurd h (by simp)
  · rw [hf] at h
    dsimp only at h
    have hf' : findNearestGo st.pos st.grids 0 none = some (i, g) := hf
    have hspec := findNearestGo_spec st.pos st.grids 0 none (by simp) i g hf'
    refine ⟨i, g, rfl, ?_, ?_, hspec.1, ?_⟩
    · cases h
      dsimp only
      rw [app1ApplyCase_pos]
    · rcases hspec.2.1 with h1 | ⟨off, hoff, hioff⟩
      · exact absurd h1 (by simp)
      · rw [hioff]; simpa using hoff
    · intro j h' hj hunc
      rcases hspec.2.2.2 j h' hj hunc with h1 | h1
      · exact Or.inl h1
      · exact Or.inr ⟨h1.1, by omega⟩

/-- Witness for claim C5: from position (0, 0) with uncovered grids at
(50, 0), (10, 0) and (10, 0), the iteration moves to the grid at distance
10 with the smaller index (index 1, not its equidistant twin at index 2). -/
theorem claim5_witness :
    ∃ i g, findNearestUncoveredGrid (⟨0, 0⟩ : Coord)
        [⟨0, ⟨50, 0⟩, 0⟩, ⟨1, ⟨10, 0⟩, 0⟩, ⟨2, ⟨10, 0⟩, 0⟩] = some (i, g) ∧
      (⟨⟨⟨10, 0⟩, 1, [], [⟨0, ⟨50, 0⟩, 0⟩, ⟨1, ⟨10, 0⟩, 1⟩, ⟨2, ⟨10, 0⟩, 0⟩], 2⟩, []⟩ :
          RobotSt × List SensorCmd).1.pos = g.center ∧
      ([⟨0, ⟨50, 0⟩, 0⟩, ⟨1, ⟨10, 0⟩, 0⟩, ⟨2, ⟨10, 0⟩, 0⟩] : List GridRec)[i]? = some g ∧
      g.status = 0 ∧
      ∀ j h', ([⟨0, ⟨50, 0⟩, 0⟩, ⟨1, ⟨10, 0⟩, 0⟩, ⟨2, ⟨10, 0⟩, 0⟩] : List GridRec)[j]? =
          some h' → h'.status = 0 →
        distSq ⟨0, 0⟩ g.center < distSq ⟨0, 0⟩ h'.center ∨
          (distSq ⟨0, 0⟩ g.center = distSq ⟨0, 0⟩ h'.center ∧ i ≤ j) :=
  claim5_nearest_selection
    ⟨⟨0, 0⟩, 2, [], [⟨0, ⟨50, 0⟩, 0⟩, ⟨1, ⟨10, 0⟩, 0⟩, ⟨2, ⟨10, 0⟩, 0⟩], 3⟩
    ⟨⟨⟨10, 0⟩, 1, [], [⟨0, ⟨50, 0⟩, 0⟩, ⟨1, ⟨10, 0⟩, 1⟩, ⟨2, ⟨10, 0⟩, 0⟩], 2⟩, []⟩
    (by decide)

/-- Counterexample to claim C5 as stated: `find_nearest_uncovered_grid` of
disaster-wsn-deployment/mobile-robot.c returns the first uncovered grid
(index 0, at distance 5 from the robot at (5, 0)) even though the
uncovered grid at index 1 is at distance 0 — the selection ignores
Euclidean distance entirely, so the visited grid need not be nearest. -/
theorem claim5_counterexample :
    findNearestUncoveredD [⟨1, ⟨0, 0⟩, 0⟩, ⟨2, ⟨5, 0⟩, 0⟩] = some 0 ∧
    distSq ⟨5, 0⟩ (⟨5, 0⟩ : Coord) < distSq ⟨5, 0⟩ (⟨0, 0⟩ : Coord) := by
  refine ⟨by decide, by decide⟩

end WsnDeployment
